import Mathlib

/-!
Verification development for two Home Assistant integration adapters:
the SignalRGB light platform (modelled from the specification, since only
its tests are in the repository fragment) and the A. O. Smith sensor
platform (embedded from `homeassistant/components/aosmith/sensor.py`).
-/

namespace SignalRGB

/-- Modelled from the spec: the designated "all off" sentinel effect name
(`const.ALL_OFF_EFFECT`; the `const` module is not part of the fragment).
The concrete string stands for the sentinel; claims only compare effect
names against it. -/
def ALL_OFF_EFFECT : String := "All Off Effect"

/-- Modelled from the spec: the default effect name applied when turning the
light on (`const.DEFAULT_EFFECT`; the `const` module is not part of the
fragment). -/
def DEFAULT_EFFECT : String := "Default Effect"

/-- Attributes of a vendor-SDK effect object; the tests read
`effect.attributes.name`. -/
structure EffectAttributes where
  name : String
deriving DecidableEq, Repr

/-- A vendor-SDK effect object as observed by the component. -/
structure Effect where
  attributes : EffectAttributes
deriving DecidableEq, Repr

/-- The vendor client as seen through its two query operations: the list of
effects returned by `get_effects` and the effect returned by
`get_current_effect`. -/
structure SignalRGBClient where
  effects : List Effect
  current_effect : Effect
deriving DecidableEq, Repr

/-- A blocking vendor-client call dispatched on a worker thread via
`hass.async_add_executor_job`. -/
inductive ClientCall where
  | apply_effect_by_name (effect : String)
  | get_effects
  | get_current_effect
deriving DecidableEq, Repr

/-- Modelled from the spec: the local state the light entity owns — on/off
flag, current effect name (string or absent), and the list of available
effect names (`light.py` is not part of the fragment). -/
structure SignalRGBLight where
  is_on : Bool
  effect : Option String
  effect_list : List String
deriving DecidableEq, Repr

/-- Modelled from the spec: a freshly constructed light entity holds no
effect, an empty available-effects list, and is off. -/
def SignalRGBLight.init : SignalRGBLight :=
  { is_on := false, effect := none, effect_list := [] }

/-- Modelled from the spec: `_apply_effect` issues one blocking
`apply_effect_by_name` call and updates the local effect attribute
optimistically. Returns the new state and the list of vendor calls made. -/
def apply_effect (s : SignalRGBLight) (name : String) :
    SignalRGBLight × List ClientCall :=
  ({ s with effect := some name }, [ClientCall.apply_effect_by_name name])

/-- Modelled from the spec: `async_turn_on` applies the default effect name
and sets the on-state true. -/
def async_turn_on (s : SignalRGBLight) : SignalRGBLight × List ClientCall :=
  let r := apply_effect s DEFAULT_EFFECT
  ({ r.1 with is_on := true }, r.2)

/-- Modelled from the spec: `async_turn_off` applies the all-off effect name
and sets the on-state false. -/
def async_turn_off (s : SignalRGBLight) : SignalRGBLight × List ClientCall :=
  let r := apply_effect s ALL_OFF_EFFECT
  ({ r.1 with is_on := false }, r.2)

/-- Modelled from the spec: `async_update` fetches the available-effects
list only when the cached list is empty, then polls the currently active
effect, records it, and sets the on-state to whether it differs from the
all-off sentinel. Returns the new state and the vendor calls made, in
order. -/
def async_update (s : SignalRGBLight) (client : SignalRGBClient) :
    SignalRGBLight × List ClientCall :=
  let r :=
    if s.effect_list.isEmpty then
      ({ s with effect_list := client.effects.map (fun e => e.attributes.name) },
        [ClientCall.get_effects])
    else (s, ([] : List ClientCall))
  let cur := client.current_effect.attributes.name
  ({ r.1 with effect := some cur, is_on := !(cur == ALL_OFF_EFFECT) },
    r.2 ++ [ClientCall.get_current_effect])

end SignalRGB

namespace AOSmith

/-- Sensor state classes from `homeassistant.components.sensor`. -/
inductive SensorStateClass where
  | MEASUREMENT
  | TOTAL
  | TOTAL_INCREASING
deriving DecidableEq, Repr

/-- Sensor device classes from `homeassistant.components.sensor` (only the
one used by this platform). -/
inductive SensorDeviceClass where
  | ENERGY
deriving DecidableEq, Repr

/-- The `PERCENTAGE` unit constant from `homeassistant.const`. -/
def PERCENTAGE : String := "%"

/-- The `UnitOfEnergy.KILO_WATT_HOUR` unit constant from
`homeassistant.const`. -/
def UnitOfEnergy.KILO_WATT_HOUR : String := "kWh"

/-- A sensor reading: the `str | int` part of the extraction function's
`str | int | None` result type (absence is `Option.none` around this). -/
inductive SensorValue where
  | s (v : String)
  | i (v : Int)
deriving DecidableEq, Repr

/-- The nested status structure of a `py_aosmith` device, holding the field
this platform reads (`device.status.hot_water_status`). -/
structure DeviceStatus where
  hot_water_status : Option SensorValue
deriving DecidableEq, Repr

/-- A `py_aosmith` device snapshot as used by this platform. -/
structure AOSmithDevice where
  status : DeviceStatus
deriving DecidableEq, Repr

/-- Lookup in a coordinator's mapping, modelled as an association list from
junction identifier to value (Python dict access; keys are unique). -/
def dictGet {α : Type} (data : List (String × α)) (k : String) : Option α :=
  (data.find? (fun p => p.fst == k)).map Prod.snd

/-- The status coordinator's cached dataset: a mapping from junction
identifier to device snapshot. -/
structure AOSmithStatusCoordinator where
  data : List (String × AOSmithDevice)
deriving DecidableEq, Repr

/-- The energy coordinator's cached dataset: a mapping from junction
identifier to a cumulative numeric energy reading. -/
structure AOSmithEnergyCoordinator where
  data : List (String × Rat)
deriving DecidableEq, Repr

/-- Entity description class for sensors using data from the status
coordinator (`AOSmithStatusSensorEntityDescription`). -/
structure AOSmithStatusSensorEntityDescription where
  key : String
  translation_key : String
  native_unit_of_measurement : String
  value_fn : AOSmithDevice → Option SensorValue

/-- The `STATUS_ENTITY_DESCRIPTIONS` tuple from `sensor.py`. -/
def STATUS_ENTITY_DESCRIPTIONS : List AOSmithStatusSensorEntityDescription :=
  [ { key := "hot_water_availability",
      translation_key := "hot_water_availability",
      native_unit_of_measurement := PERCENTAGE,
      value_fn := fun device => device.status.hot_water_status } ]

/-- A status sensor entity after `AOSmithStatusSensorEntity.__init__`:
the shared coordinator, its entity description, its junction identifier,
and the `_attr_unique_id` the constructor assigns. -/
structure AOSmithStatusSensorEntity where
  coordinator : AOSmithStatusCoordinator
  entity_description : AOSmithStatusSensorEntityDescription
  junction_id : String
  unique_id : String

/-- `AOSmithStatusSensorEntity.__init__`: stores the coordinator, the
description and the junction identifier, and sets
`_attr_unique_id = f"{description.key}_{junction_id}"`. -/
def AOSmithStatusSensorEntity.init (coordinator : AOSmithStatusCoordinator)
    (description : AOSmithStatusSensorEntityDescription) (junction_id : String) :
    AOSmithStatusSensorEntity :=
  { coordinator := coordinator
    entity_description := description
    junction_id := junction_id
    unique_id := description.key ++ "_" ++ junction_id }

/-- Modelled from the spec: `AOSmithStatusEntity.device` (`entity.py` is not
part of the fragment) — the entity's slice of the status coordinator's
latest snapshot, looked up by its junction identifier. -/
def AOSmithStatusSensorEntity.device (e : AOSmithStatusSensorEntity) :
    Option AOSmithDevice :=
  dictGet e.coordinator.data e.junction_id

/-- `AOSmithStatusSensorEntity.native_value`: the entity description's
extraction function applied to the device's slice of the coordinator's
latest snapshot, recomputed on every read. -/
def AOSmithStatusSensorEntity.native_value (e : AOSmithStatusSensorEntity) :
    Option SensorValue :=
  (e.device).bind e.entity_description.value_fn

/-- An energy sensor entity after `AOSmithEnergySensorEntity.__init__`. -/
structure AOSmithEnergySensorEntity where
  coordinator : AOSmithEnergyCoordinator
  junction_id : String
  unique_id : String
deriving DecidableEq, Repr

/-- Class attribute `_attr_translation_key` of `AOSmithEnergySensorEntity`. -/
def AOSmithEnergySensorEntity.translation_key (_e : AOSmithEnergySensorEntity) :
    String := "energy_usage"

/-- Class attribute `_attr_device_class` of `AOSmithEnergySensorEntity`. -/
def AOSmithEnergySensorEntity.device_class (_e : AOSmithEnergySensorEntity) :
    SensorDeviceClass := SensorDeviceClass.ENERGY

/-- Class attribute `_attr_state_class` of `AOSmithEnergySensorEntity`. -/
def AOSmithEnergySensorEntity.state_class (_e : AOSmithEnergySensorEntity) :
    SensorStateClass := SensorStateClass.TOTAL_INCREASING

/-- Class attribute `_attr_native_unit_of_measurement` of
`AOSmithEnergySensorEntity`. -/
def AOSmithEnergySensorEntity.native_unit_of_measurement
    (_e : AOSmithEnergySensorEntity) : String := UnitOfEnergy.KILO_WATT_HOUR

/-- Class attribute `_attr_suggested_display_precision` of
`AOSmithEnergySensorEntity`. -/
def AOSmithEnergySensorEntity.suggested_display_precision
    (_e : AOSmithEnergySensorEntity) : Nat := 1

/-- `AOSmithEnergySensorEntity.__init__`: stores the coordinator and the
junction identifier, and sets
`_attr_unique_id = f"energy_usage_{junction_id}"`. -/
def AOSmithEnergySensorEntity.init (coordinator : AOSmithEnergyCoordinator)
    (junction_id : String) : AOSmithEnergySensorEntity :=
  { coordinator := coordinator
    junction_id := junction_id
    unique_id := "energy_usage_" ++ junction_id }

/-- Modelled from the spec: `AOSmithEnergyEntity.energy_usage` (`entity.py`
is not part of the fragment) — the energy coordinator's numeric reading for
the entity's junction identifier. -/
def AOSmithEnergySensorEntity.energy_usage (e : AOSmithEnergySensorEntity) :
    Option Rat :=
  dictGet e.coordinator.data e.junction_id

/-- `AOSmithEnergySensorEntity.native_value`: returns `self.energy_usage`
unchanged. -/
def AOSmithEnergySensorEntity.native_value (e : AOSmithEnergySensorEntity) :
    Option Rat :=
  e.energy_usage

/-- The integration's runtime data: the two coordinators
(`entry.runtime_data`). -/
structure AOSmithData where
  status_coordinator : AOSmithStatusCoordinator
  energy_coordinator : AOSmithEnergyCoordinator

/-- `async_setup_entry` of the sensor platform: constructs one status
sensor entity per (description, junction identifier) pair and one energy
sensor entity per junction identifier, where junction identifiers are
enumerated from the status coordinator's cached dataset; the two lists are
the entities registered through the two `async_add_entities` calls, in
construction order. -/
def async_setup_entry (data : AOSmithData) :
    List AOSmithStatusSensorEntity × List AOSmithEnergySensorEntity :=
  ( STATUS_ENTITY_DESCRIPTIONS.flatMap (fun description =>
      (data.status_coordinator.data.map Prod.fst).map (fun junction_id =>
        AOSmithStatusSensorEntity.init data.status_coordinator description
          junction_id)),
    (data.status_coordinator.data.map Prod.fst).map (fun junction_id =>
      AOSmithEnergySensorEntity.init data.energy_coordinator junction_id) )

end AOSmith

namespace AOSmith

theorem string_append_right_inj (a : String) {b c : String}
    (h : a ++ b = a ++ c) : b = c := by
  have hd := congrArg String.data h
  simp [String.data_append] at hd
  exact String.ext hd

/-- C6: the unique identifier of each sensor entity is the description key
(or the fixed name `energy_usage` for the energy sensor) concatenated with
the underscore and the junction identifier — a deterministic function of
those inputs — and two entities built with the same description but
distinct junction identifiers always receive distinct unique
identifiers. -/
theorem unique_id_deterministic_and_distinct :
    (∀ (c : AOSmithStatusCoordinator) (d : AOSmithStatusSensorEntityDescription)
        (j : String),
      (AOSmithStatusSensorEntity.init c d j).unique_id = d.key ++ "_" ++ j) ∧
    (∀ (c : AOSmithEnergyCoordinator) (j : String),
      (AOSmithEnergySensorEntity.init c j).unique_id = "energy_usage_" ++ j) ∧
    (∀ (c c' : AOSmithStatusCoordinator)
        (d : AOSmithStatusSensorEntityDescription) (j j' : String), j ≠ j' →
      (AOSmithStatusSensorEntity.init c d j).unique_id
        ≠ (AOSmithStatusSensorEntity.init c' d j').unique_id) ∧
    (∀ (c c' : AOSmithEnergyCoordinator) (j j' : String), j ≠ j' →
      (AOSmithEnergySensorEntity.init c j).unique_id
        ≠ (AOSmithEnergySensorEntity.init c' j').unique_id) := by
  refine ⟨fun c d j => rfl, fun c j => rfl, ?_, ?_⟩
  · intro c c' d j j' hne heq
    exact hne (string_append_right_inj (d.key ++ "_")
      (by simpa [AOSmithStatusSensorEntity.init, String.append_assoc] using heq))
  · intro c c' j j' hne heq
    exact hne (string_append_right_inj "energy_usage_" heq)

/-- Witness for C6 at concrete junction identifiers `j1` and `j2`: both the
status and the energy entities get distinct unique identifiers. -/
theorem unique_id_deterministic_and_distinct_witness :
    (AOSmithStatusSensorEntity.init ⟨[]⟩
        ⟨"hot_water_availability", "hot_water_availability", PERCENTAGE,
          fun device => device.status.hot_water_status⟩ "j1").unique_id
      ≠ (AOSmithStatusSensorEntity.init ⟨[]⟩
        ⟨"hot_water_availability", "hot_water_availability", PERCENTAGE,
          fun device => device.status.hot_water_status⟩ "j2").unique_id ∧
    (AOSmithEnergySensorEntity.init ⟨[]⟩ "j1").unique_id
      ≠ (AOSmithEnergySensorEntity.init ⟨[]⟩ "j2").unique_id :=
  ⟨unique_id_deterministic_and_distinct.2.2.1 ⟨[]⟩ ⟨[]⟩
      ⟨"hot_water_availability", "hot_water_availability", PERCENTAGE,
        fun device => device.status.hot_water_status⟩ "j1" "j2" (by decide),
    unique_id_deterministic_and_distinct.2.2.2 ⟨[]⟩ ⟨[]⟩ "j1" "j2" (by decide)⟩

/-- C7: every read of the status sensor's native value recomputes the
entity description's extraction function on the device's slice of the
coordinator's snapshot; when the extraction function yields no value the
reading is `none`, a valid absent state rather than an error. -/
theorem status_native_value_is_extraction
    (coordinator : AOSmithStatusCoordinator)
    (description : AOSmithStatusSensorEntityDescription)
    (junction_id : String) (d : AOSmithDevice)
    (h : (AOSmithStatusSensorEntity.init coordinator description
      junction_id).device = some d) :
    (AOSmithStatusSensorEntity.init coordinator description
        junction_id).native_value = description.value_fn d ∧
    (description.value_fn d = none →
      (AOSmithStatusSensorEntity.init coordinator description
        junction_id).native_value = none) := by
  have hv : (AOSmithStatusSensorEntity.init coordinator description
      junction_id).native_value = description.value_fn d := by
    unfold AOSmithStatusSensorEntity.native_value
    rw [h]
    rfl
  exact ⟨hv, fun hnone => hv.trans hnone⟩

/-- Witness for C7 at a concrete snapshot: the hot-water-availability
description applied to a device whose status carries the value 42 yields
reading 42, and on a device carrying no value the reading is `none`. -/
theorem status_native_value_is_extraction_witness :
    (AOSmithStatusSensorEntity.init ⟨[("j1", ⟨⟨some (SensorValue.i 42)⟩⟩)]⟩
        ⟨"hot_water_availability", "hot_water_availability", PERCENTAGE,
          fun device => device.status.hot_water_status⟩ "j1").native_value
      = some (SensorValue.i 42) ∧
    (AOSmithStatusSensorEntity.init ⟨[("j2", ⟨⟨none⟩⟩)]⟩
        ⟨"hot_water_availability", "hot_water_availability", PERCENTAGE,
          fun device => device.status.hot_water_status⟩ "j2").native_value
      = none :=
  ⟨(status_native_value_is_extraction ⟨[("j1", ⟨⟨some (SensorValue.i 42)⟩⟩)]⟩
      ⟨"hot_water_availability", "hot_water_availability", PERCENTAGE,
        fun device => device.status.hot_water_status⟩ "j1"
      ⟨⟨some (SensorValue.i 42)⟩⟩ rfl).1,
    (status_native_value_is_extraction ⟨[("j2", ⟨⟨none⟩⟩)]⟩
      ⟨"hot_water_availability", "hot_water_availability", PERCENTAGE,
        fun device => device.status.hot_water_status⟩ "j2"
      ⟨⟨none⟩⟩ rfl).2 rfl⟩

/-- C8: the energy sensor entity reports the energy coordinator's numeric
reading for its junction identifier unchanged — whatever value the
coordinator holds, with no validation — tagged with kilowatt-hour as its
native unit, suggested display precision 1, and the total-increasing state
class. -/
theorem energy_native_value_passthrough (coordinator : AOSmithEnergyCoordinator)
    (junction_id : String) (v : Rat)
    (h : dictGet coordinator.data junction_id = some v) :
    (AOSmithEnergySensorEntity.init coordinator junction_id).native_value
      = some v ∧
    (AOSmithEnergySensorEntity.init coordinator
        junction_id).native_unit_of_measurement = UnitOfEnergy.KILO_WATT_HOUR ∧
    (AOSmithEnergySensorEntity.init coordinator
        junction_id).suggested_display_precision = 1 ∧
    (AOSmithEnergySensorEntity.init coordinator junction_id).state_class
      = SensorStateClass.TOTAL_INCREASING :=
  ⟨h, rfl, rfl, rfl⟩

/-- Witness for C8 at a concrete coordinator holding the reading -5 for
junction `j1`: even a negative (hence non-monotonic) value is passed
through unchanged, with the fixed metadata. -/
theorem energy_native_value_passthrough_witness :
    (AOSmithEnergySensorEntity.init ⟨[("j1", (-5 : Rat))]⟩ "j1").native_value
      = some (-5 : Rat) ∧
    (AOSmithEnergySensorEntity.init ⟨[("j1", (-5 : Rat))]⟩
        "j1").native_unit_of_measurement = UnitOfEnergy.KILO_WATT_HOUR ∧
    (AOSmithEnergySensorEntity.init ⟨[("j1", (-5 : Rat))]⟩
        "j1").suggested_display_precision = 1 ∧
    (AOSmithEnergySensorEntity.init ⟨[("j1", (-5 : Rat))]⟩ "j1").state_class
      = SensorStateClass.TOTAL_INCREASING :=
  energy_native_value_passthrough ⟨[("j1", (-5 : Rat))]⟩ "j1" (-5 : Rat)
    (by decide)

/-- C9: setup constructs exactly one status sensor entity per (entity
description, junction identifier) pair and exactly one energy sensor
entity per junction identifier, the junction identifiers being those
enumerated from the status coordinator's cached dataset. -/
theorem setup_one_entity_per_pair (data : AOSmithData)
    (hnodup : (data.status_coordinator.data.map Prod.fst).Nodup) :
    (∀ description ∈ STATUS_ENTITY_DESCRIPTIONS,
      ∀ junction_id ∈ data.status_coordinator.data.map Prod.fst,
        ((async_setup_entry data).1.countP (fun e =>
          e.entity_description.key == description.key &&
            e.junction_id == junction_id)) = 1) ∧
    (∀ junction_id ∈ data.status_coordinator.data.map Prod.fst,
      ((async_setup_entry data).2.countP
        (fun e => e.junction_id == junction_id)) = 1) := by
  have hcount : ∀ jid ∈ data.status_coordinator.data.map Prod.fst,
      (data.status_coordinator.data.map Prod.fst).countP (fun x => x == jid)
        = 1 := by
    intro jid hj
    have h1 := List.count_eq_one_of_mem hnodup hj
    simpa [List.count] using h1
  constructor
  · intro description hdesc junction_id hj
    have hd : description
        = { key := "hot_water_availability",
            translation_key := "hot_water_availability",
            native_unit_of_measurement := PERCENTAGE,
            value_fn := fun device => device.status.hot_water_status } := by
      simpa [STATUS_ENTITY_DESCRIPTIONS] using hdesc
    subst hd
    simp only [async_setup_entry, STATUS_ENTITY_DESCRIPTIONS,
      List.flatMap_cons, List.flatMap_nil, List.append_nil, List.countP_map]
    simpa [Function.comp, AOSmithStatusSensorEntity.init] using
      hcount junction_id hj
  · intro junction_id hj
    simp only [async_setup_entry, List.countP_map]
    simpa [Function.comp, AOSmithEnergySensorEntity.init] using
      hcount junction_id hj

/-- Witness for C9 on a concrete dataset with two junction identifiers:
each (description, identifier) pair yields exactly one status entity and
each identifier exactly one energy entity. -/
theorem setup_one_entity_per_pair_witness :
    ((async_setup_entry ⟨⟨[("a", ⟨⟨none⟩⟩), ("b", ⟨⟨none⟩⟩)]⟩, ⟨[]⟩⟩).1.countP
      (fun e => e.entity_description.key == "hot_water_availability" &&
        e.junction_id == "a")) = 1 ∧
    ((async_setup_entry ⟨⟨[("a", ⟨⟨none⟩⟩), ("b", ⟨⟨none⟩⟩)]⟩, ⟨[]⟩⟩).2.countP
      (fun e => e.junction_id == "b")) = 1 :=
  ⟨(setup_one_entity_per_pair ⟨⟨[("a", ⟨⟨none⟩⟩), ("b", ⟨⟨none⟩⟩)]⟩, ⟨[]⟩⟩
      (by decide)).1
      { key := "hot_water_availability",
        translation_key := "hot_water_availability",
        native_unit_of_measurement := PERCENTAGE,
        value_fn := fun device => device.status.hot_water_status }
      (by simp [STATUS_ENTITY_DESCRIPTIONS]) "a" (by decide),
    (setup_one_entity_per_pair ⟨⟨[("a", ⟨⟨none⟩⟩), ("b", ⟨⟨none⟩⟩)]⟩, ⟨[]⟩⟩
      (by decide)).2 "b" (by decide)⟩

/-- C10: energy sensor entities are enumerated from the status
coordinator's dataset — their junction identifiers are exactly the status
dataset's keys — so an identifier with no reading in the energy
coordinator's mapping still gets an entity, and an identifier present only
in the energy coordinator's mapping gets none. -/
theorem energy_entities_enumerated_from_status (data : AOSmithData) :
    ((async_setup_entry data).2.map (fun e => e.junction_id))
      = data.status_coordinator.data.map Prod.fst ∧
    (∀ jid, jid ∈ data.energy_coordinator.data.map Prod.fst →
      jid ∉ data.status_coordinator.data.map Prod.fst →
      ∀ e ∈ (async_setup_entry data).2, e.junction_id ≠ jid) ∧
    (∀ jid ∈ data.status_coordinator.data.map Prod.fst,
      dictGet data.energy_coordinator.data jid = none →
      ∃ e ∈ (async_setup_entry data).2, e.junction_id = jid) := by
  have hmap : ((async_setup_entry data).2.map (fun e => e.junction_id))
      = data.status_coordinator.data.map Prod.fst := by
    simp [async_setup_entry, AOSmithEnergySensorEntity.init, List.map_map,
      Function.comp]
  refine ⟨hmap, ?_, ?_⟩
  · intro jid _hjE hjS e he heq
    have hmem : e.junction_id
        ∈ (async_setup_entry data).2.map (fun e => e.junction_id) :=
      List.mem_map_of_mem _ he
    rw [hmap, heq] at hmem
    exact hjS hmem
  · intro jid hj _hnone
    refine ⟨AOSmithEnergySensorEntity.init data.energy_coordinator jid,
      ?_, rfl⟩
    simpa [async_setup_entry] using List.mem_map_of_mem
      (fun junction_id =>
        AOSmithEnergySensorEntity.init data.energy_coordinator junction_id) hj

/-- Witness for C10 on a concrete dataset where the status coordinator
knows only `a` and the energy coordinator only `b`: the single energy
entity is for `a` (despite `b` holding the only reading), and exists even
though `a` has no energy reading. -/
theorem energy_entities_enumerated_from_status_witness :
    ((async_setup_entry
        ⟨⟨[("a", ⟨⟨none⟩⟩)]⟩, ⟨[("b", (2 : Rat))]⟩⟩).2.map
      (fun e => e.junction_id)) = ["a"] ∧
    (AOSmithEnergySensorEntity.init ⟨[("b", (2 : Rat))]⟩ "a").junction_id
      ≠ "b" ∧
    (∃ e ∈ (async_setup_entry
        ⟨⟨[("a", ⟨⟨none⟩⟩)]⟩, ⟨[("b", (2 : Rat))]⟩⟩).2,
      e.junction_id = "a") :=
  ⟨(energy_entities_enumerated_from_status
      ⟨⟨[("a", ⟨⟨none⟩⟩)]⟩, ⟨[("b", (2 : Rat))]⟩⟩).1,
    (energy_entities_enumerated_from_status
      ⟨⟨[("a", ⟨⟨none⟩⟩)]⟩, ⟨[("b", (2 : Rat))]⟩⟩).2.1 "b" (by decide)
      (by decide)
      (AOSmithEnergySensorEntity.init ⟨[("b", (2 : Rat))]⟩ "a") (by decide),
    (energy_entities_enumerated_from_status
      ⟨⟨[("a", ⟨⟨none⟩⟩)]⟩, ⟨[("b", (2 : Rat))]⟩⟩).2.2 "a" (by decide)
      (by decide)⟩

end AOSmith

namespace SignalRGB

/-- C1: the available-effects list is populated only when it is empty — an
update with an empty cached list caches whatever (possibly non-empty) list
the source reports, and an update with a non-empty cached list leaves it
unchanged and never issues a `get_effects` call, regardless of what the
source would report. -/
theorem effect_list_populated_only_when_empty
    (s : SignalRGBLight) (client : SignalRGBClient) :
    (s.effect_list = [] →
      (async_update s client).1.effect_list
        = client.effects.map (fun e => e.attributes.name)) ∧
    (s.effect_list ≠ [] →
      (async_update s client).1.effect_list = s.effect_list ∧
      ClientCall.get_effects ∉ (async_update s client).2) := by
  constructor
  · intro h
    simp [async_update, h]
  · intro h
    have hne : s.effect_list.isEmpty = false := by
      simpa [List.isEmpty_iff] using h
    simp [async_update, hne]

/-- Witness for C1 at a concrete state with a non-empty cached list and a
source reporting an empty list: the cached list survives and `get_effects`
is not called. -/
theorem effect_list_populated_only_when_empty_witness :
    (async_update ⟨true, none, ["Cached Effect"]⟩
        ⟨[], ⟨⟨"Current Effect"⟩⟩⟩).1.effect_list = ["Cached Effect"] ∧
    ClientCall.get_effects ∉ (async_update ⟨true, none, ["Cached Effect"]⟩
        ⟨[], ⟨⟨"Current Effect"⟩⟩⟩).2 :=
  (effect_list_populated_only_when_empty ⟨true, none, ["Cached Effect"]⟩
    ⟨[], ⟨⟨"Current Effect"⟩⟩⟩).2 (by decide)

/-- C2: after an update cycle, the on-state is false exactly when the
client reports the all-off sentinel as the current effect, and true for
any other reported effect name. -/
theorem update_on_state_from_sentinel
    (s : SignalRGBLight) (client : SignalRGBClient) :
    (client.current_effect.attributes.name = ALL_OFF_EFFECT →
      (async_update s client).1.is_on = false) ∧
    (client.current_effect.attributes.name ≠ ALL_OFF_EFFECT →
      (async_update s client).1.is_on = true) := by
  constructor
  · intro h
    simp [async_update, h]
  · intro h
    simp [async_update, h]

/-- Witness for C2 at concrete inputs: reporting the all-off sentinel turns
the light off, and reporting another name turns it on. -/
theorem update_on_state_from_sentinel_witness :
    (async_update ⟨true, none, ["E"]⟩
        ⟨[], ⟨⟨ALL_OFF_EFFECT⟩⟩⟩).1.is_on = false ∧
    (async_update ⟨false, none, ["E"]⟩
        ⟨[], ⟨⟨"Current Effect"⟩⟩⟩).1.is_on = true :=
  ⟨(update_on_state_from_sentinel ⟨true, none, ["E"]⟩
      ⟨[], ⟨⟨ALL_OFF_EFFECT⟩⟩⟩).1 rfl,
    (update_on_state_from_sentinel ⟨false, none, ["E"]⟩
      ⟨[], ⟨⟨"Current Effect"⟩⟩⟩).2 (by decide)⟩

/-- C3: turning the light on from any starting state sets the on-state
true and issues exactly one vendor call, applying the default effect
name. -/
theorem turn_on_sets_on_and_applies_default (s : SignalRGBLight) :
    (async_turn_on s).1.is_on = true ∧
    (async_turn_on s).2 = [ClientCall.apply_effect_by_name DEFAULT_EFFECT] :=
  ⟨rfl, rfl⟩

/-- C4: turning the light off from any starting state sets the on-state
false and issues exactly one vendor call, applying the all-off effect
name. -/
theorem turn_off_sets_off_and_applies_all_off (s : SignalRGBLight) :
    (async_turn_off s).1.is_on = false ∧
    (async_turn_off s).2 = [ClientCall.apply_effect_by_name ALL_OFF_EFFECT] :=
  ⟨rfl, rfl⟩

/-- C5: applying any effect name optimistically sets the entity's effect
attribute to that exact name and issues exactly one vendor call, applying
that same name (in particular, no query call confirms the result). -/
theorem apply_effect_optimistic (s : SignalRGBLight) (name : String) :
    (apply_effect s name).1.effect = some name ∧
    (apply_effect s name).2 = [ClientCall.apply_effect_by_name name] :=
  ⟨rfl, rfl⟩

end SignalRGB
